import Mathlib

/-!
Verification of the spendalizer statement-ingestion and categorization
pipeline (`backend/services/parsers.py`, `backend/services/categorization.py`,
`backend/routes/transactions.py`, `backend/models/enums.py`).

The embedding works over decoded tables: pandas DataFrames are modelled as a
list of column labels plus rows of cells, where a cell is `Option String`
(`none` models a missing/NaN cell, exactly the `pd.notna` distinction).
Python string primitives used by the source (`.lower()`, `.strip()`,
`.replace(x, "")`, `.split()`, `in`, `.startswith`, `.endswith`,
`.isdigit()`, `float(...)`) are modelled by executable functions on
`List Char`; `float` amounts are modelled by exact rationals, which preserves
sign, magnitude and comparisons for the decimal literals the parsers see.
-/

/-- Python `str.lower()` restricted to ASCII (all patterns in the source are
ASCII). -/
def lowerS (s : String) : String := String.mk (s.data.map Char.toLower)

/-- The whitespace set stripped by Python `str.strip()` / split by
`str.split()`. -/
def pyIsSpace (c : Char) : Bool :=
  c == ' ' || c == '\t' || c == '\n' || c == '\r' || c == '\x0b' || c == '\x0c'

/-- Python `str.strip()` on a character list. -/
def pyStripL (s : List Char) : List Char :=
  ((s.dropWhile pyIsSpace).reverse.dropWhile pyIsSpace).reverse

/-- Python `str.strip()`. -/
def pyStrip (s : String) : String := String.mk (pyStripL s.data)

/-- Is `pat` a prefix of `s` (character-wise)? -/
def isPrefixL : List Char → List Char → Bool
  | [], _ => true
  | _ :: _, [] => false
  | a :: as, b :: bs => a == b && isPrefixL as bs

/-- Python substring containment `pat in s` on character lists. -/
def containsL (pat : List Char) : List Char → Bool
  | [] => pat.isEmpty
  | c :: rest => isPrefixL pat (c :: rest) || containsL pat rest

/-- Python `pat in s`. -/
def strContains (s pat : String) : Bool := containsL pat.data s.data

/-- Python `s.startswith(pat)`. -/
def strStartsWith (s pat : String) : Bool := isPrefixL pat.data s.data

/-- Python `s.endswith(pat)`. -/
def strEndsWith (s pat : String) : Bool :=
  isPrefixL pat.data.reverse s.data.reverse

/-- Fuelled worker for `removeAllL` (the fuel bounds the number of consumed
characters, so `fuel = s.length` is always enough). -/
def removeAllF (pat : List Char) : Nat → List Char → List Char
  | 0, s => s
  | _, [] => []
  | fuel + 1, c :: rest =>
    if !pat.isEmpty && isPrefixL pat (c :: rest) then
      removeAllF pat fuel (List.drop (pat.length - 1) rest)
    else
      c :: removeAllF pat fuel rest

/-- Python `s.replace(pat, "")` (every `replace` in the parsers replaces by
the empty string). -/
def removeAllL (pat s : List Char) : List Char := removeAllF pat s.length s

/-- Python `s.replace(pat, "")` on strings. -/
def removeAll (s pat : String) : String := String.mk (removeAllL pat.data s.data)

/-- Worker for `pySplitWs`: accumulates the current (reversed) token. -/
def wsSplitAux : List Char → List Char → List (List Char)
  | [], cur => if cur.isEmpty then [] else [cur.reverse]
  | c :: rest, cur =>
    if pyIsSpace c then
      if cur.isEmpty then wsSplitAux rest [] else cur.reverse :: wsSplitAux rest []
    else
      wsSplitAux rest (c :: cur)

/-- Python `s.split()` with no argument: splits on whitespace runs and drops
empty tokens. -/
def pySplitWs (s : String) : List String :=
  (wsSplitAux s.data []).map String.mk

/-- Worker for `sepSplit`: accumulates the current (reversed) token. -/
def sepSplitAux (sep : Char) : List Char → List Char → List (List Char)
  | [], cur => [cur.reverse]
  | c :: rest, cur =>
    if c == sep then cur.reverse :: sepSplitAux sep rest []
    else sepSplitAux sep rest (c :: cur)

/-- Python `s.split(sep)` with a one-character separator: keeps empty
tokens. -/
def sepSplitL (sep : Char) (s : List Char) : List (List Char) :=
  sepSplitAux sep s []

/-- Python `s.split(sep)` on strings. -/
def sepSplit (sep : Char) (s : String) : List String :=
  (sepSplitL sep s.data).map String.mk

/-- Numeric value of a digit list (used only under an all-digits guard). -/
def digitsVal (l : List Char) : Nat :=
  l.foldl (fun acc c => acc * 10 + (c.toNat - 48)) 0

/-- Python `int(s)` on a token already known to contain only digit/sign-free
material: succeeds exactly on a non-empty all-digit token (`str.isdigit`
semantics). -/
def digitsToNat? (l : List Char) : Option Nat :=
  if !l.isEmpty && l.all Char.isDigit then some (digitsVal l) else none

/-- Python `s.isdigit()` (ASCII digits). -/
def pyIsDigit (s : String) : Bool := !s.data.isEmpty && s.data.all Char.isDigit

/-- An exact decimal number `num / 10 ^ exp`: the model of a Python float
holding a parsed statement amount. Exact decimals agree with IEEE floats on
everything the pipeline does with amounts (sign tests, `abs`, `> 0`,
equality of printed decimals). -/
structure Dec where
  num : Int
  exp : Nat
deriving DecidableEq, Repr

/-- The rational value of an exact decimal. -/
def Dec.toRat (d : Dec) : ℚ := (d.num : ℚ) / 10 ^ d.exp

/-- Python `d == 0`. -/
def Dec.isZero (d : Dec) : Bool := d.num == 0

/-- Python `d < 0`. -/
def Dec.isNeg (d : Dec) : Bool := d.num < 0

/-- Python `abs(d)`. -/
def Dec.abs (d : Dec) : Dec := ⟨|d.num|, d.exp⟩

/-- Python `d > 0`. -/
def Dec.isPos (d : Dec) : Bool := 0 < d.num

/-- Python float equality (value equality, by cross-multiplication). -/
def Dec.eqv (a b : Dec) : Bool := a.num * 10 ^ b.exp == b.num * 10 ^ a.exp

/-- Model of Python `float(s)` on the decimal literals statement cells carry:
optional surrounding whitespace, optional sign, digits with an optional
decimal point (at least one digit overall). Exponent and non-finite literals
are out of the modelled fragment and are treated as parse failures. -/
def parseFloat (s : String) : Option Dec :=
  let cs := pyStripL s.data
  let signed : Int × List Char :=
    match cs with
    | '-' :: r => (-1, r)
    | '+' :: r => (1, r)
    | r => (1, r)
  match sepSplitL '.' signed.2 with
  | [i] => (digitsToNat? i).map (fun n => ⟨signed.1 * n, 0⟩)
  | [i, f] =>
    if i.isEmpty && f.isEmpty then none
    else if i.all Char.isDigit && f.all Char.isDigit then
      some ⟨signed.1 * (digitsVal i * 10 ^ f.length + digitsVal f), f.length⟩
    else none
  | _ => none

/-- Zero-padded two-digit rendering (`%02d` / `strftime` padding). -/
def pad2 (n : Nat) : String := if n < 10 then "0" ++ toString n else toString n

/-- Zero-padded four-digit rendering (`%Y`). -/
def pad4 (n : Nat) : String :=
  if n < 10 then "000" ++ toString n
  else if n < 100 then "00" ++ toString n
  else if n < 1000 then "0" ++ toString n
  else toString n

/-- A parsed calendar date. -/
structure Date where
  year : Nat
  month : Nat
  day : Nat
deriving DecidableEq, Repr

/-- Day/month range check used by the date model (month 1–12, day 1–31; the
claims only exercise dates valid under both this and the real calendar). -/
def validDate (y m d : Nat) : Bool :=
  1 ≤ m && m ≤ 12 && 1 ≤ d && d ≤ 31 && 1 ≤ y

/-- `strftime("%Y-%m-%d")`. -/
def fmtDate (d : Date) : String :=
  pad4 d.year ++ "-" ++ pad2 d.month ++ "-" ++ pad2 d.day

/-- Model of `pandas.to_datetime(s, dayfirst := b)` on the slash/dash-separated
numeric date cells the statements carry. With three numeric fields `a/b/c`:
a four-digit leading field is taken as an ISO year; otherwise, with a
four-digit trailing year, pandas tries month/day in the order selected by
`dayfirst` and swaps when the preferred reading is invalid. Anything else is
out of the modelled fragment and fails (pandas would raise, which every
caller turns into a skipped row). -/
def pdToDatetime (dayfirst : Bool) (s : String) : Option Date :=
  let cs := pyStripL s.data
  let parts := if cs.contains '/' then sepSplitL '/' cs else sepSplitL '-' cs
  match parts.map digitsToNat? with
  | [some a, some b, some c] =>
    if 1000 ≤ a then
      if validDate a b c then some ⟨a, b, c⟩ else none
    else if 1000 ≤ c then
      if dayfirst then
        if validDate c b a then some ⟨c, b, a⟩
        else if validDate c a b then some ⟨c, a, b⟩ else none
      else
        if validDate c a b then some ⟨c, a, b⟩
        else if validDate c b a then some ⟨c, b, a⟩ else none
    else none
  | _ => none

/-- Model of `pandas.to_datetime(s, format := "%d/%m/%Y")`: a strict
day/month/four-digit-year slash date; any other shape raises (callers skip
the row). -/
def parseDateDMY (s : String) : Option Date :=
  match (sepSplitL '/' (pyStripL s.data)).map digitsToNat? with
  | [some d, some m, some y] =>
    if 1000 ≤ y && validDate y m d then some ⟨y, m, d⟩ else none
  | _ => none

/-- Lower-cased month abbreviations for `%b`. -/
def monthAbbrevs : List String :=
  ["jan", "feb", "mar", "apr", "may", "jun",
   "jul", "aug", "sep", "oct", "nov", "dec"]

/-- `%b` month lookup, case-insensitive as in `strptime`. -/
def monthOfAbbrev (t : String) : Option Nat :=
  match monthAbbrevs.indexOf? (lowerS t) with
  | some i => some (i + 1)
  | none => none

/-- Model of `pandas.to_datetime(s, format := "%d-%b-%y")` (SBI dates like
`15-Jul-24`): strict day, month abbreviation, two-digit year with the
`strptime` century rule. -/
def parseDateDBY (s : String) : Option Date :=
  match sepSplitL '-' (pyStripL s.data) with
  | [d, mon, y] =>
    match digitsToNat? d, monthOfAbbrev (String.mk mon), digitsToNat? y with
    | some dd, some mm, some yy =>
      if y.length == 2 then
        let yr := if yy ≤ 68 then 2000 + yy else 1900 + yy
        if validDate yr mm dd then some ⟨yr, mm, dd⟩ else none
      else none
    | _, _, _ => none
  | _ => none

/-- `TransactionDirection` from `backend/models/enums.py`. -/
inductive Direction
  | DEBIT
  | CREDIT
deriving DecidableEq, Repr, BEq

/-- `AccountType` from `backend/models/enums.py`. -/
inductive AccountType
  | BANK
  | CREDIT_CARD
deriving DecidableEq, Repr, BEq

/-- One decoded table row for the label-based extractors: original column
label paired with the cell, `none` modelling a missing/NaN cell (the
`pd.notna` distinction). This is also exactly the `clean_metadata` mapping
the parsers attach to each record. -/
abbrev Row := List (String × Option String)

/-- One decoded row for the positional HDFC CC extractor (`row.iloc[i]`). -/
abbrev PRow := List (Option String)

/-- `row[c]` / `row.get(c)` followed by the `pd.notna` test. -/
def getCell (row : Row) (c : String) : Option String :=
  match row.find? (fun p => p.1 == c) with
  | some p => p.2
  | none => none

/-- Python `str(cell)`: a NaN cell prints as `"nan"`. -/
def strOfCell : Option String → String
  | some s => s
  | none => "nan"

/-- A decoded table (the pandas DataFrame handed to an extractor by the
tabular decoder). -/
structure Table where
  columns : List String
  rows : List Row

/-- `next((col for col in df.columns if any(word in col.lower() for word in
kws)), None)`: first column whose lower-cased label contains one of the
keywords. -/
def findCol (cols : List String) (kws : List String) : Option String :=
  cols.find? (fun c => kws.any (fun w => strContains (lowerS c) w))

/-- `row.iloc[i] if i is not None and i < len(row) else None`, followed by
the `pd.isna` test. -/
def ilocCell (row : PRow) (c : Option Nat) : Option String :=
  match c with
  | none => none
  | some i => if i < row.length then row.getD i none else none

/-- A normalized parsed record (`ParsedTransactionRecord`): the dict each
extractor appends to its `transactions` list. -/
structure ParsedTxn where
  date : String
  time : Option String := none
  description : String
  amount : Dec
  direction : Direction
  raw_metadata : Row
deriving DecidableEq, Repr

/-- The admission step shared by every extractor
(`if txn["amount"] > 0: transactions.append(txn)` — and, for the HDFC CC
parser, `if amount <= 0: continue`): the record is emitted exactly when the
resolved amount is strictly positive. -/
def emitTxn (date : String) (time : Option String) (desc : String)
    (st : Dec × Direction) (meta : Row) : Option ParsedTxn :=
  if st.1.isPos then
    some { date := date, time := time, description := desc, amount := st.1,
           direction := st.2, raw_metadata := meta }
  else none

/-- The amount cleanup of `parse_generic_csv` / `parse_hdfc_cc_excel`:
`.replace(",", "").replace("INR", "").replace("₹", "").strip()`. -/
def cleanAmt (s : String) : String :=
  pyStrip (removeAll (removeAll (removeAll s ",") "INR") "₹")

/-- The amount cleanup of `parse_generic_excel` / `parse_sbi_csv`:
`.replace(",", "").replace("INR", "").strip()` (no currency symbol). -/
def cleanAmtX (s : String) : String :=
  pyStrip (removeAll (removeAll s ",") "INR")

/-- Per-row body of `parse_generic_csv` (parsers.py lines 525–589), given the
discovered columns. Returns `none` when the row is skipped. -/
def genericCsvRow (dc xc : String) (wCol dCol aCol iCol : Option String)
    (row : Row) : Option ParsedTxn :=
  match (getCell row dc).bind (pdToDatetime true) with
  | none => none
  | some d =>
    let txnDate := fmtDate d
    let desc := pyStrip (strOfCell (getCell row xc))
    let st0 : Dec × Direction := (⟨0, 0⟩, .DEBIT)
    -- Method 1: separate Debit/Credit columns
    let st1 :=
      match wCol with
      | none => st0
      | some c =>
        match getCell row c with
        | none => st0
        | some cell =>
          match parseFloat (cleanAmt cell) with
          | none => st0
          | some amt => if !amt.isZero then (amt.abs, Direction.DEBIT) else st0
    let st2 :=
      match dCol with
      | none => st1
      | some c =>
        match getCell row c with
        | none => st1
        | some cell =>
          match parseFloat (cleanAmt cell) with
          | none => st1
          | some amt => if !amt.isZero then (amt.abs, Direction.CREDIT) else st1
    -- Method 2: single Amount column (sign or Dr/Cr indicator)
    let st3 :=
      if st2.1.isZero then
        match aCol with
        | none => st2
        | some c =>
          match getCell row c with
          | none => st2
          | some cell =>
            match parseFloat (cleanAmt cell) with
            | none => st2
            | some amt =>
              let dir :=
                match iCol with
                | some ic =>
                  match getCell row ic with
                  | some ind =>
                    let i := lowerS (pyStrip ind)
                    if i == "cr" || i == "credit" || i == "c" || i == "+" then
                      Direction.CREDIT
                    else Direction.DEBIT
                  | none => if amt.isNeg then Direction.CREDIT else Direction.DEBIT
                | none => if amt.isNeg then Direction.CREDIT else Direction.DEBIT
              (amt.abs, dir)
      else st2
    emitTxn txnDate none desc st3 row

/-- `parse_generic_csv` (parsers.py lines 481–592) from the decoded table on:
column discovery then the per-row loop. -/
def parse_generic_csv (t : Table) : List ParsedTxn :=
  let date_col := findCol t.columns ["date", "txn", "transaction"]
  let desc_col := findCol t.columns
    ["narration", "description", "particulars", "details", "memo"]
  match date_col, desc_col with
  | some dc, some xc =>
    let withdrawal_col := findCol t.columns ["withdrawal", "debit"]
    let deposit_col := findCol t.columns ["deposit", "credit"]
    let amount_col := findCol t.columns ["amount", "amt", "value", "sum"]
    let dr_cr_col := findCol t.columns ["dr/cr", "drcr", "type", "indicator"]
    t.rows.filterMap
      (genericCsvRow dc xc withdrawal_col deposit_col amount_col dr_cr_col)
  | _, _ => []

/-- The amount/direction column scan of `parse_generic_excel` (lines
331–340): every column whose label contains a debit keyword overwrites the
running amount with direction DEBIT, every credit-keyword column with
CREDIT; an unparsable numeric cell raises and aborts the whole row
(`none`). -/
def excelAmtLoop (row : Row) : Dec × Direction → List String →
    Option (Dec × Direction)
  | st, [] => some st
  | st, c :: rest =>
    let cl := lowerS c
    if strContains cl "withdrawal" || strContains cl "debit" then
      match getCell row c with
      | none => excelAmtLoop row st rest
      | some cell =>
        match parseFloat (cleanAmtX cell) with
        | none => none
        | some amt => excelAmtLoop row (amt.abs, Direction.DEBIT) rest
    else if strContains cl "deposit" || strContains cl "credit" then
      match getCell row c with
      | none => excelAmtLoop row st rest
      | some cell =>
        match parseFloat (cleanAmtX cell) with
        | none => none
        | some amt => excelAmtLoop row (amt.abs, Direction.CREDIT) rest
    else excelAmtLoop row st rest

/-- Per-row body of `parse_generic_excel` (lines 319–346). The date is
parsed with `pd.to_datetime(row[date_col])` — the pandas default, no
`dayfirst`. -/
def genericExcelRow (cols : List String) (dc xc : String) (row : Row) :
    Option ParsedTxn :=
  match (getCell row dc).bind (pdToDatetime false) with
  | none => none
  | some d =>
    let desc := pyStrip (strOfCell (getCell row xc))
    match excelAmtLoop row (⟨0, 0⟩, .DEBIT) cols with
    | none => none
    | some st => emitTxn (fmtDate d) none desc st row

/-- `parse_generic_excel` (parsers.py lines 290–348) from the decoded table
on. -/
def parse_generic_excel (t : Table) : List ParsedTxn :=
  let date_col := findCol t.columns ["date", "txn", "transaction"]
  let desc_col := findCol t.columns
    ["narration", "description", "particulars", "details"]
  match date_col, desc_col with
  | some dc, some xc => t.rows.filterMap (genericExcelRow t.columns dc xc)
  | _, _ => []

/-- Per-row body of `parse_sbi_csv` (lines 433–471). A missing debit or
credit column raises `IndexError` per row (caught, row skipped); an
unparsable amount raises `ValueError` (caught, row skipped). -/
def sbiRow (cols : List String) (row : Row) : Option ParsedTxn :=
  match getCell row "Txn Date", getCell row "Description" with
  | some dcell, some xcell =>
    match parseDateDBY (pyStrip dcell) with
    | none => none
    | some dateObj =>
      let description := pyStrip xcell
      match cols.find? (fun c => strContains (lowerS c) "debit"),
            cols.find? (fun c => strContains (lowerS c) "credit") with
      | some debit_col, some credit_col =>
        let res : Option (Dec × Direction) :=
          match getCell row debit_col with
          | some cell =>
            let s := cleanAmtX cell
            if s != "" then (parseFloat s).map (fun a => (a.abs, Direction.DEBIT))
            else some (⟨0, 0⟩, .DEBIT)
          | none =>
            match getCell row credit_col with
            | some cell =>
              let s := cleanAmtX cell
              if s != "" then (parseFloat s).map (fun a => (a.abs, Direction.CREDIT))
              else some (⟨0, 0⟩, .DEBIT)
            | none => some (⟨0, 0⟩, .DEBIT)
        match res with
        | none => none
        | some st => emitTxn (fmtDate dateObj) none description st row
      | _, _ => none
  | _, _ => none

/-- The row loop of `parse_sbi_csv` (parsers.py lines 431–473), given the
decoded table; encoding selection and header-line location (lines 411–429)
are the tabular decoder and are not part of the row semantics. -/
def parse_sbi_rows (cols : List String) (rows : List Row) : List ParsedTxn :=
  rows.filterMap (sbiRow cols)

/-- The time-token scan of `parse_hdfc_cc_excel` (lines 139–150): every
whitespace token after the date that contains `:` and is all digits once
`:` and `/` are removed is parsed as `HH:MM`; a valid token (hour 0–23,
minute 0–59) overwrites the current time; invalid tokens are dropped. -/
def hdfcTimeLoop : List String → Option String → Option String
  | [], t => t
  | part :: rest, t =>
    if strContains part ":" &&
        pyIsDigit (pyStrip (removeAll (removeAll part ":") "/")) then
      let time_part := pyStrip (removeAll part "/")
      match sepSplit ':' time_part with
      | h :: m :: _ =>
        match digitsToNat? h.data, digitsToNat? m.data with
        | some hour, some minute =>
          if hour ≤ 23 && minute ≤ 59 then
            hdfcTimeLoop rest (some (pad2 hour ++ ":" ++ pad2 minute ++ ":00"))
          else hdfcTimeLoop rest t
        | _, _ => hdfcTimeLoop rest t
      | _ => hdfcTimeLoop rest t
    else hdfcTimeLoop rest t

/-- Per-row body of `parse_hdfc_cc_excel` (lines 111–208), given the column
indices produced by its header/column discovery (lines 40–108); the claims
hold for every assignment of those indices, so discovery is universally
quantified rather than replayed. -/
def hdfcCcRow (date_col desc_col amt_col dr_cr_col : Option Nat) (row : PRow) :
    Option ParsedTxn :=
  if (row.filterMap id).length < 3 then none
  else
    match ilocCell row date_col with
    | none => none
    | some dval =>
      let date_str := pyStrip dval
      let dateTime : Option (String × Option String) :=
        if strContains date_str "/" then
          match pySplitWs date_str with
          | [] => none
          | p0 :: restParts =>
            match parseDateDMY (pyStrip p0) with
            | none => none
            | some d => some (fmtDate d, hdfcTimeLoop restParts none)
        else
          match pdToDatetime true date_str with
          | none => none
          | some d => some (fmtDate d, none)
      match dateTime with
      | none => none
      | some dt =>
        match ilocCell row desc_col with
        | none => none
        | some dv =>
          let description := pyStrip dv
          if description.length < 3 then none
          else
            match ilocCell row amt_col with
            | none => none
            | some av =>
              match parseFloat (cleanAmt av) with
              | none => none
              | some amtParsed =>
                let dr_cr :=
                  match ilocCell row dr_cr_col with
                  | some v => lowerS (pyStrip v)
                  | none => ""
                let direction :=
                  if dr_cr == "cr" then Direction.CREDIT else Direction.DEBIT
                emitTxn dt.1 dt.2 description (amtParsed.abs, direction)
                  (((List.range row.length).zip row).map
                    (fun p => (toString p.1, p.2)))

/-- The transaction loop of `parse_hdfc_cc_excel` (parsers.py lines
111–211). -/
def parse_hdfc_cc_rows (date_col desc_col amt_col dr_cr_col : Option Nat)
    (rows : List PRow) : List ParsedTxn :=
  rows.filterMap (hdfcCcRow date_col desc_col amt_col dr_cr_col)

/-- `CategorizationResult`: the dict returned by the categorization
functions (`category_id`, `categorisation_source`, `confidence_score`).
Confidence floats are exact decimal literals, kept as rationals. -/
structure CatResult where
  category_id : Option String
  categorisation_source : String
  confidence_score : Option ℚ
deriving DecidableEq, Repr

/-- `cc_payment_patterns` (categorization.py lines 189–199). -/
def cc_payment_patterns : List String :=
  ["credit card payment", "cc payment", "card payment", "bill payment",
   "payment received", "net banking", "neft", "imps", "upi"]

/-- `refund_patterns` (line 214). -/
def refund_patterns : List String :=
  ["refund", "reversal", "cashback", "reimbursement"]

/-- `atm_patterns` (line 227). -/
def atm_patterns : List String := ["atm", "cash withdrawal", "cash wdl"]

/-- `categorize_with_smart_patterns` (categorization.py lines 180–239). Each
branch returns the hardcoded system category with
`categorisation_source = "RULE"` (the source labels these "system
auto-rules"). -/
def categorize_with_smart_patterns (description : String)
    (direction : Direction) (transaction_type : AccountType) :
    Option CatResult :=
  let desc_lower := lowerS description
  if direction == .CREDIT && transaction_type == .CREDIT_CARD &&
      cc_payment_patterns.any (fun p => strContains desc_lower p) then
    some { category_id := some "4c9b8d7a-6e4f-4b9a-2c3d-2e9f8a7b8c9d",
           categorisation_source := "RULE", confidence_score := some 1 }
  else if direction == .CREDIT &&
      refund_patterns.any (fun p => strContains desc_lower p) then
    some { category_id := some "d5221882-05a4-4540-aa04-64f595253d16",
           categorisation_source := "RULE", confidence_score := some (9/10) }
  else if direction == .DEBIT &&
      atm_patterns.any (fun p => strContains desc_lower p) then
    some { category_id := some "a8f3e5c7-2b9d-4a1e-8f6c-9d2b7e4a3f1c",
           categorisation_source := "RULE", confidence_score := some (95/100) }
  else none

/-- `CategoryRule` (models/schemas.py), restricted to the fields the
categorization engine reads. -/
structure Rule where
  user_id : String
  pattern : String
  match_type : String
  account_id : Option String
  category_id : String
  priority : Int
  is_active : Bool
deriving DecidableEq, Repr

/-- The Mongo query filter of `categorize_with_rules` (lines 48–50):
`user_id`, `is_active: True`, and — when an account is given — an `$or` of
matching or null `account_id`. -/
def ruleInScope (uid : String) (acct : Option String) (r : Rule) : Bool :=
  r.user_id == uid && r.is_active &&
    (match acct with
     | some a => r.account_id == some a || r.account_id == none
     | none => true)

/-- Stable descending insertion by `priority` (the `.sort("priority", -1)`
of the rule fetch; ties keep store order, which the spec leaves
implementation-defined). -/
def insertDesc (r : Rule) : List Rule → List Rule
  | [] => [r]
  | x :: xs => if x.priority < r.priority then r :: x :: xs else x :: insertDesc r xs

/-- Sort rules by priority descending (stable). -/
def sortRulesDesc (l : List Rule) : List Rule := l.foldr insertDesc []

/-- The rule fetch of `categorize_with_rules` (line 52): filter to the
user's active, in-scope rules and sort by priority descending. -/
def fetchRules (allRules : List Rule) (uid : String) (acct : Option String) :
    List Rule :=
  sortRulesDesc (allRules.filter (ruleInScope uid acct))

/-- The per-rule match test of `categorize_with_rules` (lines 57–71): the
rule's lower-cased pattern against the lower-cased description, by match
type. `regexM pat s` abstracts `re.search(pat, s)`; a `.error` result models
an exception (e.g. a malformed pattern), which the bare `except: continue`
turns into a non-match. An unrecognized match type leaves `matched`
False. -/
def ruleMatches (regexM : String → String → Except Unit Bool) (r : Rule)
    (description_lower : String) : Bool :=
  let pattern := lowerS r.pattern
  if r.match_type == "CONTAINS" then strContains description_lower pattern
  else if r.match_type == "STARTS_WITH" then
    strStartsWith description_lower pattern
  else if r.match_type == "ENDS_WITH" then
    strEndsWith description_lower pattern
  else if r.match_type == "REGEX" then
    match regexM pattern description_lower with
    | .ok b => b
    | .error _ => false
  else false

/-- The `for rule in rules` loop of `categorize_with_rules` (lines 56–80):
first matching rule returns its category with source `"RULE"` and
confidence 1.0. -/
def rulesLoop (regexM : String → String → Except Unit Bool)
    (description_lower : String) : List Rule → Option CatResult
  | [] => none
  | r :: rest =>
    if ruleMatches regexM r description_lower then
      some { category_id := some r.category_id,
             categorisation_source := "RULE", confidence_score := some 1 }
    else rulesLoop regexM description_lower rest

/-- `categorize_with_rules` (categorization.py lines 46–80), over the rule
store contents. -/
def categorize_with_rules (regexM : String → String → Except Unit Bool)
    (allRules : List Rule) (uid : String) (description : String)
    (acct : Option String) : Option CatResult :=
  rulesLoop regexM (lowerS description) (fetchRules allRules uid acct)

/-- `Category` (models/schemas.py), restricted to the fields the LLM name
resolution reads. -/
structure Category where
  id : String
  name : String
  is_system : Bool
  user_id : Option String
deriving DecidableEq, Repr

/-- The decoded inner JSON of an LLM reply: either not valid JSON
(`json.JSONDecodeError`), or an object whose `category` / `confidence`
fields may each be absent. -/
inductive LlmBody
  | badJson
  | json (category : Option String) (confidence : Option ℚ)
deriving DecidableEq, Repr

/-- The observable outcome of the Ollama HTTP call in
`categorize_with_llm`: an exception anywhere in the guarded block (network
error, timeout, …) or an HTTP response with a status code and body. -/
inductive LlmOutcome
  | exn
  | httpResp (status_code : Nat) (body : LlmBody)
deriving DecidableEq, Repr

/-- `categorize_with_llm` (categorization.py lines 83–146), over the
category store and the outcome of the external call. Any exception and any
non-200 or unparsable response yields `none`; a parsed reply resolves the
category by exact name among system plus own categories, with confidence
defaulting to 0.5. -/
def categorize_with_llm (cats : List Category) (outcome : LlmOutcome)
    (_description : String) (_amount : Dec) (_direction : Direction)
    (_transaction_type : AccountType) (uid : String) : Option CatResult :=
  match outcome with
  | .exn => none
  | .httpResp code body =>
    if code == 200 then
      match body with
      | .badJson => none
      | .json catName conf =>
        match catName with
        | none => none
        | some nm =>
          match cats.find?
              (fun c => c.name == nm && (c.is_system || c.user_id == some uid)) with
          | some c =>
            some { category_id := some c.id, categorisation_source := "LLM",
                   confidence_score := some (conf.getD (1/2)) }
          | none => none
    else none

/-- `categorize_transaction` (categorization.py lines 149–177): smart
patterns, then user rules, then LLM, then UNCATEGORISED. -/
def categorize_transaction (regexM : String → String → Except Unit Bool)
    (outcome : LlmOutcome) (allRules : List Rule) (cats : List Category)
    (uid : String) (description : String) (amount : Dec)
    (direction : Direction) (transaction_type : AccountType)
    (acct : Option String) : CatResult :=
  match categorize_with_smart_patterns description direction transaction_type with
  | some r => r
  | none =>
    match categorize_with_rules regexM allRules uid description acct with
    | some r => r
    | none =>
      match categorize_with_llm cats outcome description amount direction
          transaction_type uid with
      | some r => r
      | none =>
        { category_id := none, categorisation_source := "UNCATEGORISED",
          confidence_score := none }

/-- A persisted transaction, restricted to the five fields the duplicate
query filters on. -/
structure TxnDoc where
  user_id : String
  account_id : String
  date : String
  amount : Dec
  description : String
deriving DecidableEq, Repr

/-- `check_duplicate` (categorization.py lines 242–251): `find_one` on the
transaction store with equality on all five fields (amount equality is
numeric). -/
def check_duplicate (txns : List TxnDoc) (uid acct date : String)
    (amount : Dec) (description : String) : Bool :=
  (txns.find? (fun t =>
    t.user_id == uid && t.account_id == acct && t.date == date &&
      t.amount.eqv amount && t.description == description)).isSome

/-- `ImportStatus` from `backend/models/enums.py`. -/
inductive IStatus
  | PENDING
  | SUCCESS
  | FAILED
  | PARTIAL
deriving DecidableEq, Repr

/-- The outcome of processing one parsed record inside the import loop
(routes/transactions.py lines 87–122): found duplicate, persisted
successfully, or raised (`err` carries `str(e)`). -/
inductive RowStep
  | dup
  | ok
  | err (msg : String)
deriving DecidableEq, Repr

/-- Does this step raise? -/
def RowStep.isErr : RowStep → Bool
  | .err _ => true
  | _ => false

/-- The mutable `ImportBatch` counters and status
(models/schemas.py `ImportBatch`, fields the import loop touches). -/
structure BatchState where
  total_rows : Nat
  success_count : Nat
  error_count : Nat
  duplicate_count : Nat
  status : IStatus
  error_log : Option String
deriving DecidableEq, Repr

/-- The row loop plus the final status assignment of `import_transactions`
(routes/transactions.py lines 87–146): duplicates bump `duplicate_count`,
persisted rows bump `success_count`; the first exception jumps to the
handler, which forces `status = FAILED` and records the message; a completed
loop sets SUCCESS exactly when `success_count > 0`, FAILED otherwise. -/
def processRows : List RowStep → BatchState → BatchState
  | [], b =>
    { b with status := if 0 < b.success_count then .SUCCESS else .FAILED }
  | .dup :: rest, b =>
    processRows rest { b with duplicate_count := b.duplicate_count + 1 }
  | .ok :: rest, b =>
    processRows rest { b with success_count := b.success_count + 1 }
  | .err msg :: _, b => { b with status := .FAILED, error_log := some msg }

/-- `import_transactions` from the point the records are parsed
(`batch.total_rows = len(parsed_txns)`, line 81) to the persisted batch:
the batch starts PENDING with zero counters and is threaded through the row
loop. -/
def import_transactions (steps : List RowStep) : BatchState :=
  processRows steps
    { total_rows := steps.length, success_count := 0, error_count := 0,
      duplicate_count := 0, status := .PENDING, error_log := none }

/-! Bridge lemmas between the Boolean float tests and rational values. -/

theorem Dec.toRat_pos_of_isPos (d : Dec) (h : d.isPos = true) : 0 < d.toRat := by
  have hn : (0 : ℤ) < d.num := by simpa [Dec.isPos] using h
  have : (0 : ℚ) < (d.num : ℚ) := by exact_mod_cast hn
  unfold Dec.toRat
  positivity

theorem Dec.toRat_abs (d : Dec) : d.abs.toRat = |d.toRat| := by
  unfold Dec.toRat Dec.abs
  rw [abs_div]
  have h10 : (0 : ℚ) < 10 ^ d.exp := by positivity
  rw [abs_of_pos h10]
  push_cast
  ring

theorem Dec.isNeg_iff (d : Dec) : d.isNeg = true ↔ d.toRat < 0 := by
  have h10 : (0 : ℚ) < 10 ^ d.exp := by positivity
  unfold Dec.isNeg Dec.toRat
  rw [div_neg_iff]
  constructor
  · intro h
    have hn : d.num < 0 := by simpa using h
    exact Or.inr ⟨by exact_mod_cast hn, h10⟩
  · rintro (⟨_, h2⟩ | ⟨h1, _⟩)
    · exact absurd h10 (not_lt.mpr h2.le)
    · have : d.num < 0 := by exact_mod_cast h1
      simpa using this

theorem Dec.abs_isPos_of_not_isZero (d : Dec) (h : d.isZero = false) :
    d.abs.isPos = true := by
  have hn : d.num ≠ 0 := by simpa [Dec.isZero] using h
  simp [Dec.abs, Dec.isPos, abs_pos, hn]

theorem Dec.abs_isZero (d : Dec) : d.abs.isZero = d.isZero := by
  simp [Dec.abs, Dec.isZero, abs_eq_zero]

theorem Dec.eqv_iff (a b : Dec) : a.eqv b = true ↔ a.toRat = b.toRat := by
  have ha : (0 : ℚ) < 10 ^ a.exp := by positivity
  have hb : (0 : ℚ) < 10 ^ b.exp := by positivity
  unfold Dec.eqv Dec.toRat
  rw [div_eq_div_iff ha.ne' hb.ne', beq_iff_eq]
  constructor
  · intro h
    have : ((a.num * 10 ^ b.exp : ℤ) : ℚ) = ((b.num * 10 ^ a.exp : ℤ) : ℚ) := by
      exact_mod_cast h
    push_cast at this
    linarith [this]
  · intro h
    have : ((a.num * 10 ^ b.exp : ℤ) : ℚ) = ((b.num * 10 ^ a.exp : ℤ) : ℚ) := by
      push_cast
      linarith [h]
    exact_mod_cast this

/-! Per-row admission lemmas: a row function only ever emits through
`emitTxn`, whose guard is strict positivity of the resolved amount. -/

theorem emitTxn_isPos (date : String) (time : Option String) (desc : String)
    (st : Dec × Direction) (meta : Row) (txn : ParsedTxn)
    (h : emitTxn date time desc st meta = some txn) : txn.amount.isPos = true := by
  unfold emitTxn at h
  split at h
  · cases h
    assumption
  · exact absurd h (by simp)

theorem genericCsvRow_isPos (dc xc : String) (w d a i : Option String)
    (row : Row) (txn : ParsedTxn)
    (h : genericCsvRow dc xc w d a i row = some txn) :
    txn.amount.isPos = true := by
  unfold genericCsvRow at h
  split at h
  · exact absurd h (by simp)
  · exact emitTxn_isPos _ _ _ _ _ _ h

theorem genericExcelRow_isPos (cols : List String) (dc xc : String)
    (row : Row) (txn : ParsedTxn)
    (h : genericExcelRow cols dc xc row = some txn) :
    txn.amount.isPos = true := by
  unfold genericExcelRow at h
  try dsimp only [] at h
  repeat' (split at h <;> try dsimp only [] at h)
  all_goals first
    | exact emitTxn_isPos _ _ _ _ _ _ h
    | exact absurd h (by simp)

theorem sbiRow_isPos (cols : List String) (row : Row) (txn : ParsedTxn)
    (h : sbiRow cols row = some txn) : txn.amount.isPos = true := by
  unfold sbiRow at h
  try dsimp only [] at h
  repeat' (split at h <;> try dsimp only [] at h)
  all_goals first
    | exact emitTxn_isPos _ _ _ _ _ _ h
    | exact absurd h (by simp)

theorem hdfcCcRow_isPos (c1 c2 c3 c4 : Option Nat) (row : PRow)
    (txn : ParsedTxn) (h : hdfcCcRow c1 c2 c3 c4 row = some txn) :
    txn.amount.isPos = true := by
  unfold hdfcCcRow at h
  try dsimp only [] at h
  repeat' (split at h <;> try dsimp only [] at h)
  all_goals first
    | exact emitTxn_isPos _ _ _ _ _ _ h
    | exact absurd h (by simp)

/-- C2: every record emitted by every extractor has a strictly positive
amount — rows whose resolved amount is zero, negative or unparsable never
appear in the output of the generic CSV, generic Excel, SBI or HDFC CC
extractor. -/
theorem extracted_amount_pos :
    (∀ t txn, txn ∈ parse_generic_csv t → 0 < txn.amount.toRat) ∧
    (∀ t txn, txn ∈ parse_generic_excel t → 0 < txn.amount.toRat) ∧
    (∀ cols rows txn, txn ∈ parse_sbi_rows cols rows → 0 < txn.amount.toRat) ∧
    (∀ c1 c2 c3 c4 rows txn,
      txn ∈ parse_hdfc_cc_rows c1 c2 c3 c4 rows → 0 < txn.amount.toRat) := by
  refine ⟨fun t txn h => ?_, fun t txn h => ?_, fun cols rows txn h => ?_,
    fun c1 c2 c3 c4 rows txn h => ?_⟩
  · unfold parse_generic_csv at h
    dsimp only [] at h
    split at h
    · rw [List.mem_filterMap] at h
      obtain ⟨r, _, hr⟩ := h
      exact Dec.toRat_pos_of_isPos _ (genericCsvRow_isPos _ _ _ _ _ _ _ _ hr)
    · exact absurd h (by simp)
  · unfold parse_generic_excel at h
    dsimp only [] at h
    split at h
    · rw [List.mem_filterMap] at h
      obtain ⟨r, _, hr⟩ := h
      exact Dec.toRat_pos_of_isPos _ (genericExcelRow_isPos _ _ _ _ _ hr)
    · exact absurd h (by simp)
  · unfold parse_sbi_rows at h
    rw [List.mem_filterMap] at h
    obtain ⟨r, _, hr⟩ := h
    exact Dec.toRat_pos_of_isPos _ (sbiRow_isPos _ _ _ hr)
  · unfold parse_hdfc_cc_rows at h
    rw [List.mem_filterMap] at h
    obtain ⟨r, _, hr⟩ := h
    exact Dec.toRat_pos_of_isPos _ (hdfcCcRow_isPos _ _ _ _ _ _ hr)

/-- A concrete one-row generic-CSV table (day-first date, withdrawal
column). -/
def csvDemoTable : Table :=
  { columns := ["Date", "Description", "Withdrawal Amt.", "Deposit Amt."],
    rows := [[("Date", some "05/04/2024"),
              ("Description", some "ZOMATO FOOD ORDER"),
              ("Withdrawal Amt.", some "150.00"),
              ("Deposit Amt.", none)]] }

/-- The record `parse_generic_csv` emits for `csvDemoTable`. -/
def csvDemoTxn : ParsedTxn :=
  { date := "2024-04-05", time := none, description := "ZOMATO FOOD ORDER",
    amount := ⟨15000, 2⟩, direction := .DEBIT,
    raw_metadata := [("Date", some "05/04/2024"),
                     ("Description", some "ZOMATO FOOD ORDER"),
                     ("Withdrawal Amt.", some "150.00"),
                     ("Deposit Amt.", none)] }

/-- Witness for the amount-positivity theorem at a concrete table. -/
theorem extracted_amount_pos_witness :
    csvDemoTxn ∈ parse_generic_csv csvDemoTable ∧ 0 < csvDemoTxn.amount.toRat :=
  ⟨by decide, extracted_amount_pos.1 csvDemoTable csvDemoTxn (by decide)⟩

/-- C9: when keyword matching locates no date column or no description
column, the keyword-based extractors return the empty record list (both are
total functions — the missing-column path raises nothing). -/
theorem missing_columns_empty :
    (∀ t, (findCol t.columns ["date", "txn", "transaction"] = none ∨
        findCol t.columns
          ["narration", "description", "particulars", "details", "memo"] = none) →
      parse_generic_csv t = []) ∧
    (∀ t, (findCol t.columns ["date", "txn", "transaction"] = none ∨
        findCol t.columns
          ["narration", "description", "particulars", "details"] = none) →
      parse_generic_excel t = []) := by
  constructor <;>
    · intro t h
      rcases h with h | h <;>
        cases hfd : findCol t.columns ["date", "txn", "transaction"] <;>
          simp [parse_generic_csv, parse_generic_excel, h, hfd]

/-- A table with a date column but no description column. -/
def noDescTable : Table :=
  { columns := ["Date", "Amount"],
    rows := [[("Date", some "05/04/2024"), ("Amount", some "100")]] }

/-- Witness for the missing-column theorem at a concrete table. -/
theorem missing_columns_empty_witness :
    parse_generic_csv noDescTable = [] ∧ parse_generic_excel noDescTable = [] :=
  ⟨missing_columns_empty.1 noDescTable (Or.inr (by decide)),
   missing_columns_empty.2 noDescTable (Or.inr (by decide))⟩

theorem emitTxn_some (date : String) (time : Option String) (desc : String)
    (st : Dec × Direction) (meta : Row) (txn : ParsedTxn)
    (h : emitTxn date time desc st meta = some txn) :
    txn = { date := date, time := time, description := desc, amount := st.1,
            direction := st.2, raw_metadata := meta } ∧ st.1.isPos = true := by
  unfold emitTxn at h
  split at h
  · cases h
    exact ⟨rfl, by assumption⟩
  · exact absurd h (by simp)

/-- C6: a row with no debit/credit columns and no Dr/Cr indicator column,
whose single amount cell parses to a non-zero value `q`, is emitted with the
absolute magnitude of `q` and direction CREDIT exactly when the raw parsed
value is negative, DEBIT otherwise. -/
theorem single_amount_sign_direction :
    ∀ (dc xc ac : String) (row : Row) (d : Date) (s : String) (q : Dec),
      (getCell row dc).bind (pdToDatetime true) = some d →
      getCell row ac = some s →
      parseFloat (cleanAmt s) = some q →
      q.isZero = false →
      genericCsvRow dc xc none none (some ac) none row =
        some { date := fmtDate d, time := none,
               description := pyStrip (strOfCell (getCell row xc)),
               amount := q.abs,
               direction := if q.isNeg then .CREDIT else .DEBIT,
               raw_metadata := row } ∧
      q.abs.toRat = |q.toRat| ∧ (q.isNeg = true ↔ q.toRat < 0) := by
  intro dc xc ac row d s q hdate hcell hq hnz
  refine ⟨?_, Dec.toRat_abs q, Dec.isNeg_iff q⟩
  unfold genericCsvRow
  rw [hdate]
  simp [emitTxn, hcell, hq, Dec.abs_isPos_of_not_isZero _ hnz, Dec.isZero]

/-- The single-amount demo row (`Amount = -50.00`). -/
def amtDemoRow : Row :=
  [("Txn Date", some "05/04/2024"), ("Particulars", some "REFUND X"),
   ("Amount", some "-50.00")]

/-- Witness for the signed-amount theorem: raw cell `-50.00` yields stored
amount `50.0` and direction CREDIT. -/
theorem single_amount_sign_direction_witness :
    (genericCsvRow "Txn Date" "Particulars" none none (some "Amount") none
        amtDemoRow).map (fun t => (t.amount, t.direction)) =
      some (⟨5000, 2⟩, Direction.CREDIT) := by
  have h := single_amount_sign_direction "Txn Date" "Particulars" "Amount"
    amtDemoRow ⟨2024, 4, 5⟩ "-50.00" ⟨-5000, 2⟩
    (by decide) (by decide) (by decide) (by decide)
  rw [h.1]
  rfl

/-- C10: in the generic CSV extractor, a row whose withdrawal cell and
deposit cell both parse to non-zero values is emitted with direction CREDIT
and the absolute value of the deposit cell — the deposit column, evaluated
second, overrides the withdrawal column. -/
theorem deposit_overrides_withdrawal :
    ∀ (dc xc wc dpc : String) (aCol iCol : Option String) (row : Row)
      (d : Date) (ws ds : String) (qw qd : Dec),
      (getCell row dc).bind (pdToDatetime true) = some d →
      getCell row wc = some ws →
      parseFloat (cleanAmt ws) = some qw →
      qw.isZero = false →
      getCell row dpc = some ds →
      parseFloat (cleanAmt ds) = some qd →
      qd.isZero = false →
      genericCsvRow dc xc (some wc) (some dpc) aCol iCol row =
        some { date := fmtDate d, time := none,
               description := pyStrip (strOfCell (getCell row xc)),
               amount := qd.abs, direction := .CREDIT, raw_metadata := row } ∧
      qd.abs.toRat = |qd.toRat| := by
  intro dc xc wc dpc aCol iCol row d ws ds qw qd hdate hw hqw hnzw hd hqd hnzd
  refine ⟨?_, Dec.toRat_abs qd⟩
  unfold genericCsvRow
  rw [hdate]
  simp [emitTxn, hw, hqw, hnzw, hd, hqd, hnzd, Dec.abs_isZero,
    Dec.abs_isPos_of_not_isZero _ hnzd]

/-- A row carrying both a non-zero withdrawal cell and a non-zero deposit
cell. -/
def bothColsRow : Row :=
  [("Date", some "05/04/2024"), ("Description", some "ODD BOTH-SIDES ROW"),
   ("Withdrawal Amt.", some "100.00"), ("Deposit Amt.", some "250.00")]

/-- Witness for the deposit-overrides theorem at a concrete row. -/
theorem deposit_overrides_withdrawal_witness :
    (genericCsvRow "Date" "Description" (some "Withdrawal Amt.")
        (some "Deposit Amt.") none none bothColsRow).map
      (fun t => (t.amount, t.direction)) = some (⟨25000, 2⟩, Direction.CREDIT) := by
  have h := deposit_overrides_withdrawal "Date" "Description" "Withdrawal Amt."
    "Deposit Amt." none none bothColsRow ⟨2024, 4, 5⟩ "100.00" "250.00"
    ⟨10000, 2⟩ ⟨25000, 2⟩ (by decide) (by decide) (by decide) (by decide)
    (by decide) (by decide) (by decide)
  rw [h.1]
  rfl

/-- A one-row table whose date cell is the ambiguous `05/04/2024`. -/
def excelDateTable : Table :=
  { columns := ["Date", "Description", "Debit"],
    rows := [[("Date", some "05/04/2024"),
              ("Description", some "TEST PURCHASE"),
              ("Debit", some "100.00")]] }

/-- C3 counterexample: `parse_generic_excel` calls the date parser without
`dayfirst`, so the cell `05/04/2024` is emitted as `2024-05-04` (month
first), not `2024-04-05`. -/
theorem generic_excel_not_dayfirst :
    (parse_generic_excel excelDateTable).map ParsedTxn.date = ["2024-05-04"] ∧
    ("2024-05-04" : String) ≠ "2024-04-05" := by decide

/-- C3 (amended): the generic CSV extractor and the HDFC CC extractor parse
date cells day-first, while the generic Excel extractor uses the pandas
default (month-first on ambiguous cells): on `05/04/2024` the two
conventions produce April 5 and May 4 respectively. -/
theorem extractor_date_conventions :
    (∀ (dc xc : String) (w dp a i : Option String) (row : Row) s d txn,
       getCell row dc = some s → pdToDatetime true s = some d →
       genericCsvRow dc xc w dp a i row = some txn → txn.date = fmtDate d) ∧
    (∀ (cols : List String) (dc xc : String) (row : Row) s d txn,
       getCell row dc = some s → pdToDatetime false s = some d →
       genericExcelRow cols dc xc row = some txn → txn.date = fmtDate d) ∧
    (∀ (c1 c2 c3 c4 : Option Nat) (row : PRow) s p0 rest d txn,
       ilocCell row c1 = some s →
       strContains (pyStrip s) "/" = true →
       pySplitWs (pyStrip s) = p0 :: rest →
       parseDateDMY (pyStrip p0) = some d →
       hdfcCcRow c1 c2 c3 c4 row = some txn → txn.date = fmtDate d) ∧
    (pdToDatetime true "05/04/2024" = some ⟨2024, 4, 5⟩ ∧
     pdToDatetime false "05/04/2024" = some ⟨2024, 5, 4⟩) := by
  refine ⟨?_, ?_, ?_, by decide⟩
  · intro dc xc w dp a i row s d txn hs hd h
    unfold genericCsvRow at h
    rw [hs] at h
    simp only [Option.some_bind, hd] at h
    rw [(emitTxn_some _ _ _ _ _ _ h).1]
  · intro cols dc xc row s d txn hs hd h
    unfold genericExcelRow at h
    rw [hs] at h
    simp only [Option.some_bind, hd] at h
    split at h
    · exact absurd h (by simp)
    · rw [(emitTxn_some _ _ _ _ _ _ h).1]
  · intro c1 c2 c3 c4 row s p0 rest d txn hs hslash hsplit hd h
    unfold hdfcCcRow at h
    split at h
    · exact absurd h (by simp)
    · rw [hs] at h
      dsimp only [] at h
      rw [if_pos hslash, hsplit] at h
      dsimp only [] at h
      rw [hd] at h
      dsimp only [] at h
      repeat' split at h
      all_goals first
        | exact absurd h (by simp)
        | rw [(emitTxn_some _ _ _ _ _ _ h).1]

/-- Witness for the date-convention theorem: the generic CSV extractor maps
the cell `05/04/2024` to the day-first date `2024-04-05`. -/
theorem extractor_date_conventions_witness :
    ("2024-04-05" : String) = fmtDate ⟨2024, 4, 5⟩ :=
  extractor_date_conventions.1 "Txn Date" "Particulars" none none
    (some "Amount") none amtDemoRow "05/04/2024" ⟨2024, 4, 5⟩
    ⟨"2024-04-05", none, "REFUND X", ⟨5000, 2⟩, .CREDIT, amtDemoRow⟩
    (by decide) (by decide) (by decide)

/-- A regex backend on which every `re.search` call raises (models e.g. a
malformed pattern). -/
def regexNever : String → String → Except Unit Bool := fun _ _ => .error ()

/-- A user rule matching any description containing `upi`. -/
def upiRule : Rule :=
  ⟨"u1", "upi", "CONTAINS", none, "user-upi-category", 100, true⟩

/-- C1 counterexample: a description that matches both the smart pattern
table and a user rule is categorized with source tag `"RULE"` — there is no
SMART_PATTERN source value anywhere in the code, so the tag is RULE, not
SMART_PATTERN. -/
theorem smart_pattern_source_cex :
    ruleMatches regexNever upiRule (lowerS "UPI PAYMENT RECEIVED") = true ∧
    (categorize_with_smart_patterns "UPI PAYMENT RECEIVED" .CREDIT
      .CREDIT_CARD).isSome = true ∧
    (categorize_transaction regexNever .exn [upiRule] [] "u1"
        "UPI PAYMENT RECEIVED" ⟨100, 0⟩ .CREDIT .CREDIT_CARD
        none).categorisation_source = "RULE" ∧
    (categorize_transaction regexNever .exn [upiRule] [] "u1"
        "UPI PAYMENT RECEIVED" ⟨100, 0⟩ .CREDIT .CREDIT_CARD
        none).categorisation_source ≠ "SMART_PATTERN" := by
  refine ⟨by decide, by rfl, by rfl, by decide⟩

/-- C1 (amended): a smart-pattern hit is returned by the waterfall unchanged
— it takes precedence over any matching user rule — and every smart-pattern
result carries source tag `"RULE"` (the code labels them system
auto-rules; no SMART_PATTERN tag exists). -/
theorem smart_pattern_precedence :
    ∀ regexM outcome allRules cats uid desc amt dir tt acct r,
      categorize_with_smart_patterns desc dir tt = some r →
      categorize_transaction regexM outcome allRules cats uid desc amt dir tt
          acct = r ∧
      r.categorisation_source = "RULE" := by
  intro regexM outcome allRules cats uid desc amt dir tt acct r h
  constructor
  · unfold categorize_transaction
    rw [h]
  · unfold categorize_with_smart_patterns at h
    dsimp only [] at h
    repeat' split at h
    all_goals first
      | (cases h; rfl)
      | exact absurd h (by simp)

/-- Witness for smart-pattern precedence: the UPI payment case. -/
theorem smart_pattern_precedence_witness :
    categorize_transaction regexNever .exn [upiRule] [] "u1"
        "UPI PAYMENT RECEIVED" ⟨100, 0⟩ .CREDIT .CREDIT_CARD none =
      ⟨some "4c9b8d7a-6e4f-4b9a-2c3d-2e9f8a7b8c9d", "RULE", some 1⟩ :=
  (smart_pattern_precedence regexNever .exn [upiRule] [] "u1"
    "UPI PAYMENT RECEIVED" ⟨100, 0⟩ .CREDIT .CREDIT_CARD none
    ⟨some "4c9b8d7a-6e4f-4b9a-2c3d-2e9f8a7b8c9d", "RULE", some 1⟩ (by rfl)).1

/-- C5: the waterfall is a total function (it cannot raise), and whenever
all three strategies produce no result — with the external call failing by
exception, non-200 status or unparsable JSON all yielding no result — the
outcome is `category_id = None`, source `UNCATEGORISED`, confidence
`None`. -/
theorem waterfall_uncategorised :
    (∀ regexM outcome allRules cats uid desc amt dir tt acct,
      categorize_with_smart_patterns desc dir tt = none →
      categorize_with_rules regexM allRules uid desc acct = none →
      categorize_with_llm cats outcome desc amt dir tt uid = none →
      categorize_transaction regexM outcome allRules cats uid desc amt dir tt
          acct = ⟨none, "UNCATEGORISED", none⟩) ∧
    (∀ cats desc amt dir tt uid,
      categorize_with_llm cats .exn desc amt dir tt uid = none) ∧
    (∀ cats code body desc amt dir tt uid, code ≠ 200 →
      categorize_with_llm cats (.httpResp code body) desc amt dir tt uid =
        none) ∧
    (∀ cats code desc amt dir tt uid,
      categorize_with_llm cats (.httpResp code .badJson) desc amt dir tt uid =
        none) := by
  refine ⟨?_, ?_, ?_, ?_⟩
  · intro regexM outcome allRules cats uid desc amt dir tt acct h1 h2 h3
    unfold categorize_transaction
    rw [h1, h2, h3]
  · intro cats desc amt dir tt uid
    rfl
  · intro cats code body desc amt dir tt uid hc
    unfold categorize_with_llm
    simp [hc]
  · intro cats code desc amt dir tt uid
    unfold categorize_with_llm
    dsimp only []
    split <;> rfl

/-- Witness for the UNCATEGORISED fallthrough: no smart pattern, no rules,
LLM call raising. -/
theorem waterfall_uncategorised_witness :
    categorize_transaction regexNever .exn [] [] "u1" "misc groceries"
        ⟨100, 0⟩ .DEBIT .BANK none = ⟨none, "UNCATEGORISED", none⟩ :=
  waterfall_uncategorised.1 regexNever .exn [] [] "u1" "misc groceries"
    ⟨100, 0⟩ .DEBIT .BANK none (by rfl) (by rfl) (by rfl)

/-- C8: the duplicate check succeeds exactly when some persisted transaction
of the same user agrees on all of account, date, amount (numerically) and
description; any difference in any component makes it false. -/
theorem duplicate_iff :
    ∀ (txns : List TxnDoc) uid acct date amt desc,
      check_duplicate txns uid acct date amt desc = true ↔
        ∃ t ∈ txns, t.user_id = uid ∧ t.account_id = acct ∧ t.date = date ∧
          t.amount.toRat = amt.toRat ∧ t.description = desc := by
  intro txns uid acct date amt desc
  simp [check_duplicate, List.find?_isSome, Dec.eqv_iff, and_assoc]

theorem mem_insertDesc {r x : Rule} {l : List Rule} :
    x ∈ insertDesc r l ↔ x = r ∨ x ∈ l := by
  induction l with
  | nil => simp [insertDesc]
  | cons a as ih =>
    unfold insertDesc
    split
    · simp [or_comm, or_assoc, or_left_comm]
    · simp [ih]
      tauto

theorem pairwise_insertDesc (r : Rule) (l : List Rule)
    (h : l.Pairwise (fun a b => b.priority ≤ a.priority)) :
    (insertDesc r l).Pairwise (fun a b => b.priority ≤ a.priority) := by
  induction l with
  | nil => simp [insertDesc]
  | cons x xs ih =>
    rw [List.pairwise_cons] at h
    obtain ⟨hx, hxs⟩ := h
    unfold insertDesc
    split
    · rename_i hlt
      rw [List.pairwise_cons]
      refine ⟨?_, List.pairwise_cons.mpr ⟨hx, hxs⟩⟩
      intro y hy
      rcases List.mem_cons.mp hy with rfl | hy
      · exact le_of_lt hlt
      · exact le_trans (hx y hy) (le_of_lt hlt)
    · rename_i hge
      rw [List.pairwise_cons]
      refine ⟨?_, ih hxs⟩
      intro y hy
      rcases mem_insertDesc.mp hy with rfl | hy
      · exact not_lt.mp hge
      · exact hx y hy

theorem sortRulesDesc_pairwise (l : List Rule) :
    (sortRulesDesc l).Pairwise (fun a b => b.priority ≤ a.priority) := by
  unfold sortRulesDesc
  induction l with
  | nil => simp
  | cons x xs ih => exact pairwise_insertDesc x _ ih

theorem mem_sortRulesDesc {x : Rule} {l : List Rule} :
    x ∈ sortRulesDesc l ↔ x ∈ l := by
  unfold sortRulesDesc
  induction l with
  | nil => simp
  | cons a as ih => simp [mem_insertDesc, ih]

theorem rulesLoop_first_match (regexM : String → String → Except Unit Bool)
    (dl : String) (pre : List Rule) (r : Rule) (post : List Rule)
    (hpre : ∀ p ∈ pre, ruleMatches regexM p dl = false)
    (hr : ruleMatches regexM r dl = true) :
    rulesLoop regexM dl (pre ++ r :: post) =
      some ⟨some r.category_id, "RULE", some 1⟩ := by
  induction pre with
  | nil => simp [rulesLoop, hr]
  | cons p ps ih =>
    have hp := hpre p (by simp)
    rw [List.cons_append]
    unfold rulesLoop
    rw [hp]
    exact ih (fun q hq => hpre q (by simp [hq]))

theorem rulesLoop_none (regexM : String → String → Except Unit Bool)
    (dl : String) (l : List Rule)
    (h : ∀ p ∈ l, ruleMatches regexM p dl = false) :
    rulesLoop regexM dl l = none := by
  induction l with
  | nil => rfl
  | cons p ps ih =>
    unfold rulesLoop
    rw [h p (by simp)]
    exact ih (fun q hq => h q (by simp [hq]))

/-- C7: `categorize_with_rules` evaluates exactly the user's active,
in-scope rules in priority-descending order against the lower-cased
description; the first matching rule wins with source `"RULE"` and
confidence exactly 1.0, no match yields no result, and a REGEX rule whose
evaluation raises (e.g. a pattern that fails to compile) is treated as
non-matching. -/
theorem rules_priority_first_match :
    (∀ regexM allRules uid desc acct pre r post,
      fetchRules allRules uid acct = pre ++ r :: post →
      (∀ p ∈ pre, ruleMatches regexM p (lowerS desc) = false) →
      ruleMatches regexM r (lowerS desc) = true →
      categorize_with_rules regexM allRules uid desc acct =
        some ⟨some r.category_id, "RULE", some 1⟩) ∧
    (∀ regexM allRules uid desc acct,
      (∀ p ∈ fetchRules allRules uid acct,
        ruleMatches regexM p (lowerS desc) = false) →
      categorize_with_rules regexM allRules uid desc acct = none) ∧
    (∀ allRules uid acct,
      (fetchRules allRules uid acct).Pairwise
        (fun a b => b.priority ≤ a.priority) ∧
      ∀ p ∈ fetchRules allRules uid acct,
        p.is_active = true ∧ p.user_id = uid) ∧
    (∀ regexM (r : Rule) dl, r.match_type = "REGEX" →
      regexM (lowerS r.pattern) dl = Except.error () →
      ruleMatches regexM r dl = false) := by
  refine ⟨?_, ?_, ?_, ?_⟩
  · intro regexM allRules uid desc acct pre r post hsplit hpre hr
    unfold categorize_with_rules
    rw [hsplit]
    exact rulesLoop_first_match regexM _ pre r post hpre hr
  · intro regexM allRules uid desc acct h
    exact rulesLoop_none regexM _ _ h
  · intro allRules uid acct
    refine ⟨sortRulesDesc_pairwise _, ?_⟩
    intro p hp
    have hmem := mem_sortRulesDesc.mp hp
    have hin := List.of_mem_filter hmem
    have := hin
    simp only [ruleInScope, Bool.and_eq_true, beq_iff_eq] at this
    exact ⟨this.1.2, this.1.1⟩
  · intro regexM r dl hmt hre
    simp [ruleMatches, hmt, hre]

/-- Two active CONTAINS rules of the same user, the higher-priority one
listed second in store order. -/
def ruleA : Rule := ⟨"u1", "zomato", "CONTAINS", none, "cat-food", 20, true⟩

/-- The lower-priority rule (also matches the demo description). -/
def ruleB : Rule := ⟨"u1", "order", "CONTAINS", none, "cat-misc", 10, true⟩

/-- Witness for the rule engine: on `"ZOMATO FOOD ORDER"` the
priority-20 CONTAINS rule wins over the priority-10 one with confidence
1.0 and source RULE. -/
theorem rules_priority_first_match_witness :
    categorize_with_rules regexNever [ruleB, ruleA] "u1" "ZOMATO FOOD ORDER"
        none = some ⟨some "cat-food", "RULE", some 1⟩ :=
  rules_priority_first_match.1 regexNever [ruleB, ruleA] "u1"
    "ZOMATO FOOD ORDER" none [] ruleA [ruleB] (by decide) (by simp)
    (by decide)

theorem processRows_success_iff (steps : List RowStep) (b : BatchState)
    (h : steps.all (fun s => !s.isErr) = true) :
    ((processRows steps b).status = .SUCCESS ↔
      0 < (processRows steps b).success_count) := by
  induction steps generalizing b with
  | nil =>
    by_cases hpos : 0 < b.success_count <;> simp [processRows, hpos]
  | cons s rest ih =>
    rw [List.all_cons, Bool.and_eq_true] at h
    cases s with
    | dup => exact ih _ h.2
    | ok => exact ih _ h.2
    | err msg => simp [RowStep.isErr] at h

theorem processRows_err (steps : List RowStep) (b : BatchState)
    (h : steps.any RowStep.isErr = true) :
    (processRows steps b).status = .FAILED ∧
      (processRows steps b).error_log ≠ none := by
  induction steps generalizing b with
  | nil => simp at h
  | cons s rest ih =>
    rw [List.any_cons, Bool.or_eq_true] at h
    cases s with
    | dup =>
      refine ih _ ?_
      simpa [RowStep.isErr] using h
    | ok =>
      refine ih _ ?_
      simpa [RowStep.isErr] using h
    | err msg => exact ⟨rfl, by simp [processRows]⟩

theorem processRows_status (steps : List RowStep) (b : BatchState) :
    (processRows steps b).status = .SUCCESS ∨
      (processRows steps b).status = .FAILED := by
  induction steps generalizing b with
  | nil =>
    by_cases hpos : 0 < b.success_count <;> simp [processRows, hpos]
  | cons s rest ih =>
    cases s with
    | dup => exact ih _
    | ok => exact ih _
    | err msg => exact Or.inr rfl

/-- C4 counterexample: an import whose second record's persistence raises
ends with `success_count = 1` yet persisted status FAILED — on the exception
path the status is not `SUCCESS if success_count > 0`. -/
theorem batch_status_cex :
    (import_transactions [RowStep.ok, RowStep.err "insert failed"]).success_count
        = 1 ∧
    (import_transactions [RowStep.ok, RowStep.err "insert failed"]).status =
      IStatus.FAILED ∧
    IStatus.FAILED ≠ IStatus.SUCCESS := by decide

/-- C4 (amended): the persisted batch status is never PARTIAL; on a run
with no exception it is SUCCESS exactly when `success_count > 0` (FAILED
otherwise); and any exception forces FAILED — regardless of
`success_count` — with the error recorded. -/
theorem batch_status :
    ∀ steps,
      (import_transactions steps).status ≠ IStatus.PARTIAL ∧
      (steps.all (fun s => !s.isErr) = true →
        ((import_transactions steps).status = .SUCCESS ↔
          0 < (import_transactions steps).success_count)) ∧
      (steps.any RowStep.isErr = true →
        (import_transactions steps).status = .FAILED ∧
        (import_transactions steps).error_log ≠ none) := by
  intro steps
  refine ⟨?_, ?_, ?_⟩
  · rcases processRows_status steps
      { total_rows := steps.length, success_count := 0, error_count := 0,
        duplicate_count := 0, status := .PENDING, error_log := none } with
      h | h <;> simp [import_transactions, h]
  · intro h
    exact processRows_success_iff steps _ h
  · intro h
    exact processRows_err steps _ h

/-- Witness for the batch-status theorem: a clean two-row import (one
duplicate, one success) ends SUCCESS. -/
theorem batch_status_witness :
    (import_transactions [RowStep.dup, RowStep.ok]).status = IStatus.SUCCESS :=
  ((batch_status [RowStep.dup, RowStep.ok]).2.1 (by decide)).mpr (by decide)
